import Mathlib

/-
Verification of the column/expression layer of the sqlbuilder package
(`column.go`): typed column variants, alias columns, deferred lookup
columns, identifier validation, and their SQL serialization protocol.

Modelling conventions:
- Go's `bytes.Buffer` is append-only here, so a buffer is the list of
  characters written so far; each write returns the new buffer.
- A Go method that mutates its receiver and returns an `error` becomes a
  pure function returning the new receiver state paired with an
  `Option String` error (`none` = nil error).
- `deferredLookupColumn.SerializeSql` additionally reports the number of
  `table.getColumn` invocations it performed (0 or 1), mirroring the
  call-counting test double the specification describes.
-/

set_option autoImplicit false

namespace Sqlbuilder

/-- Output buffer, modelling Go's `bytes.Buffer`: the list of characters
written so far (the serializers only append). -/
abbrev Buffer := List Char

/-- Modelling `bytes.Buffer.WriteRune`: append one character. -/
def Buffer.WriteRune (out : Buffer) (c : Char) : Buffer :=
  out ++ [c]

/-- Modelling `bytes.Buffer.WriteString`: append a string's characters. -/
def Buffer.WriteString (out : Buffer) (s : String) : Buffer :=
  out ++ s.data

/-- Modelling `bytes.Buffer.WriteByte`: append one (ASCII) character. -/
def Buffer.WriteByte (out : Buffer) (c : Char) : Buffer :=
  out ++ [c]

/-- Modelling `bytes.Buffer.String`: the buffer contents as a string. -/
def Buffer.toStr (out : Buffer) : String :=
  String.mk out

/-- Modelled from the spec: the external `Dialect` collaborator is consumed
only through its single identifier-escape character
(`Dialect.EscapeCharacter() -> character`). -/
structure Dialect where
  EscapeCharacter : Char

/-- Modelled from the spec: `Expression.SerializeSql(dialect, buffer)` is the
only operation the alias column needs from a wrapped sub-expression; an
expression is therefore its serialization function (buffer in, new buffer and
optional error out). -/
abbrev Expression := Dialect → Buffer → Buffer × Option String

/-- Go `type NullableColumn bool`. -/
abbrev NullableColumn := Bool

/-- Go constant `Nullable NullableColumn = true`. -/
def Nullable : NullableColumn := true

/-- Go constant `NotNullable NullableColumn = false`. -/
def NotNullable : NullableColumn := false

/-- Go `type Collation string`. -/
abbrev Collation := String

/-- Go constant `UTF8CaseInsensitive`. -/
def UTF8CaseInsensitive : Collation := "utf8_unicode_ci"

/-- Go constant `UTF8CaseSensitive`. -/
def UTF8CaseSensitive : Collation := "utf8_unicode"

/-- Go constant `UTF8Binary`. -/
def UTF8Binary : Collation := "utf8_bin"

/-- Go `type Charset string`. -/
abbrev Charset := String

/-- Go constant `UTF8`. -/
def UTF8 : Charset := "utf8"

/-- Character class `[a-zA-Z_]`, the first-character class of the identifier
regexp `^[a-zA-Z_]\w*$` in column.go. -/
def isIdentStartChar (c : Char) : Bool :=
  decide (('a' ≤ c ∧ c ≤ 'z') ∨ ('A' ≤ c ∧ c ≤ 'Z') ∨ c = '_')

/-- Character class `\w` = `[0-9A-Za-z_]` (RE2 semantics), the repeated class
of the identifier regexp in column.go. -/
def isWordChar (c : Char) : Bool :=
  decide (('a' ≤ c ∧ c ≤ 'z') ∨ ('A' ≤ c ∧ c ≤ 'Z') ∨ ('0' ≤ c ∧ c ≤ '9') ∨ c = '_')

/-- Go `validIdentifierName`: true iff the string matches the anchored regexp
`^[a-zA-Z_]\w*$` (one start-class character, then zero or more word
characters, and nothing else). -/
def validIdentifierName (name : String) : Bool :=
  match name.data with
  | [] => false
  | c :: cs => isIdentStartChar c && cs.all isWordChar

/-- Go struct `baseColumn`: the base type for real materialized columns
(the `isProjection`/`isExpression` marker embeds carry no state). -/
structure baseColumn where
  name : String
  nullable : NullableColumn
  table : String
  deriving DecidableEq

/-- Go `baseColumn.Name`. -/
def baseColumn.Name (c : baseColumn) : String :=
  c.name

/-- Go `baseColumn.setTableName`: sets `table` unconditionally and returns a
nil error; returned as (new receiver state, error). -/
def baseColumn.setTableName (c : baseColumn) (table : String) : baseColumn × Option String :=
  ({ c with table := table }, none)

/-- Go `baseColumn.SerializeSqlForColumnList`: optionally emit
`<esc>table<esc>.`, then always emit `<esc>name<esc>`; never fails. -/
def baseColumn.SerializeSqlForColumnList (c : baseColumn) (includeTableName : Bool)
    (d : Dialect) (out : Buffer) : Buffer × Option String :=
  let out :=
    if c.table ≠ "" ∧ includeTableName = true then
      Buffer.WriteByte
        (Buffer.WriteRune (Buffer.WriteString (Buffer.WriteRune out d.EscapeCharacter) c.table)
          d.EscapeCharacter) '.'
    else out
  (Buffer.WriteRune (Buffer.WriteString (Buffer.WriteRune out d.EscapeCharacter) c.name)
    d.EscapeCharacter, none)

/-- Go `baseColumn.SerializeSql`: delegates to the column-list form with
`includeTableName = true`. -/
def baseColumn.SerializeSql (c : baseColumn) (d : Dialect) (out : Buffer) :
    Buffer × Option String :=
  c.SerializeSqlForColumnList true d out

/-- Go struct `bytesColumn` (embeds `baseColumn`). -/
structure bytesColumn where
  toBaseColumn : baseColumn
  deriving DecidableEq

/-- Go factory `BytesColumn`: panics (modelled as `none`) iff the name is not
a valid identifier; otherwise returns the column with `table` unset. -/
def BytesColumn (name : String) (nullable : NullableColumn) : Option bytesColumn :=
  if !validIdentifierName name then none
  else some { toBaseColumn := { name := name, nullable := nullable, table := "" } }

/-- Promoted `Name` on `bytesColumn` (Go embedding promotion). -/
def bytesColumn.Name (c : bytesColumn) : String :=
  c.toBaseColumn.Name

/-- Go struct `stringColumn` (embeds `baseColumn`, adds charset/collation). -/
structure stringColumn where
  toBaseColumn : baseColumn
  charset : Charset
  collation : Collation
  deriving DecidableEq

/-- Go factory `StrColumn`: panics (modelled as `none`) iff the name is not a
valid identifier; otherwise returns the column with `table` unset. -/
def StrColumn (name : String) (charset : Charset) (collation : Collation)
    (nullable : NullableColumn) : Option stringColumn :=
  if !validIdentifierName name then none
  else some { toBaseColumn := { name := name, nullable := nullable, table := "" },
              charset := charset, collation := collation }

/-- Promoted `Name` on `stringColumn`. -/
def stringColumn.Name (c : stringColumn) : String :=
  c.toBaseColumn.Name

/-- Promoted `setTableName` on `stringColumn` (mutates the embedded base). -/
def stringColumn.setTableName (c : stringColumn) (table : String) :
    stringColumn × Option String :=
  let r := c.toBaseColumn.setTableName table
  ({ c with toBaseColumn := r.1 }, r.2)

/-- Promoted `SerializeSqlForColumnList` on `stringColumn`. -/
def stringColumn.SerializeSqlForColumnList (c : stringColumn) (includeTableName : Bool)
    (d : Dialect) (out : Buffer) : Buffer × Option String :=
  c.toBaseColumn.SerializeSqlForColumnList includeTableName d out

/-- Promoted `SerializeSql` on `stringColumn`. -/
def stringColumn.SerializeSql (c : stringColumn) (d : Dialect) (out : Buffer) :
    Buffer × Option String :=
  c.toBaseColumn.SerializeSql d out

/-- Go struct `dateTimeColumn` (embeds `baseColumn`). -/
structure dateTimeColumn where
  toBaseColumn : baseColumn
  deriving DecidableEq

/-- Go factory `DateTimeColumn`. -/
def DateTimeColumn (name : String) (nullable : NullableColumn) : Option dateTimeColumn :=
  if !validIdentifierName name then none
  else some { toBaseColumn := { name := name, nullable := nullable, table := "" } }

/-- Promoted `Name` on `dateTimeColumn`. -/
def dateTimeColumn.Name (c : dateTimeColumn) : String :=
  c.toBaseColumn.Name

/-- Go struct `integerColumn` (embeds `baseColumn`). -/
structure integerColumn where
  toBaseColumn : baseColumn
  deriving DecidableEq

/-- Go factory `IntColumn`. -/
def IntColumn (name : String) (nullable : NullableColumn) : Option integerColumn :=
  if !validIdentifierName name then none
  else some { toBaseColumn := { name := name, nullable := nullable, table := "" } }

/-- Promoted `Name` on `integerColumn`. -/
def integerColumn.Name (c : integerColumn) : String :=
  c.toBaseColumn.Name

/-- Go struct `doubleColumn` (embeds `baseColumn`). -/
structure doubleColumn where
  toBaseColumn : baseColumn
  deriving DecidableEq

/-- Go factory `DoubleColumn`. -/
def DoubleColumn (name : String) (nullable : NullableColumn) : Option doubleColumn :=
  if !validIdentifierName name then none
  else some { toBaseColumn := { name := name, nullable := nullable, table := "" } }

/-- Promoted `Name` on `doubleColumn`. -/
def doubleColumn.Name (c : doubleColumn) : String :=
  c.toBaseColumn.Name

/-- Go struct `booleanColumn` (embeds `baseColumn`). -/
structure booleanColumn where
  toBaseColumn : baseColumn
  deriving DecidableEq

/-- Go factory `BoolColumn`. -/
def BoolColumn (name : String) (nullable : NullableColumn) : Option booleanColumn :=
  if !validIdentifierName name then none
  else some { toBaseColumn := { name := name, nullable := nullable, table := "" } }

/-- Promoted `Name` on `booleanColumn`. -/
def booleanColumn.Name (c : booleanColumn) : String :=
  c.toBaseColumn.Name

/-- Go struct `aliasColumn`: embeds `baseColumn` (only its `name` is ever
set by `Alias`) plus the wrapped expression (`none` models a nil Go
interface value). -/
structure aliasColumn where
  toBaseColumn : baseColumn
  expression : Option Expression

/-- Go `Alias(name, c)`: pure construction, no validation; Go zero values for
the unspecified `nullable` and `table` fields. -/
def Alias (name : String) (c : Option Expression) : aliasColumn :=
  { toBaseColumn := { name := name, nullable := false, table := "" }, expression := c }

/-- Go `aliasColumn.SerializeSql`: emits only `<esc>name<esc>` and always
succeeds. -/
def aliasColumn.SerializeSql (c : aliasColumn) (d : Dialect) (out : Buffer) :
    Buffer × Option String :=
  (Buffer.WriteRune (Buffer.WriteString (Buffer.WriteRune out d.EscapeCharacter)
    c.toBaseColumn.name) d.EscapeCharacter, none)

/-- Go `aliasColumn.SerializeSqlForColumnList`: validate the alias name, then
the non-nil expression, then emit `(`, delegate to the expression, and on
success emit `) AS <esc>name<esc>`. (The second nil check in the Go source,
after the `(` write, is unreachable: the first nil check already returned.) -/
def aliasColumn.SerializeSqlForColumnList (c : aliasColumn) (includeTableName : Bool)
    (d : Dialect) (out : Buffer) : Buffer × Option String :=
  if !validIdentifierName c.toBaseColumn.name then
    (out, some ("invalid alias name `" ++ c.toBaseColumn.name ++ "`. Generated sql: " ++
      Buffer.toStr out))
  else
    match c.expression with
    | none => (out, some ("cannot alias a nil expression. Generated sql: " ++ Buffer.toStr out))
    | some expr =>
      let out := Buffer.WriteByte out '('
      match expr d out with
      | (out2, some err) => (out2, some err)
      | (out2, none) =>
        (Buffer.WriteRune
          (Buffer.WriteString
            (Buffer.WriteRune (Buffer.WriteString out2 ") AS ") d.EscapeCharacter)
            c.toBaseColumn.name)
          d.EscapeCharacter, none)

/-- Go `aliasColumn.setTableName`: always returns an error and never mutates
the receiver. -/
def aliasColumn.setTableName (c : aliasColumn) (table : String) :
    aliasColumn × Option String :=
  (c, some ("alias column \x27" ++ c.toBaseColumn.name ++
    "\x27 should never have setTableName called on it"))

/-- Modelled from the spec: the `Table` type lives outside this file's source;
the spec exposes only `Table.getColumn(name) -> Result<NonAliasColumn, Error>`.
Every concrete non-alias column in column.go serializes through its embedded
`baseColumn`, so the looked-up column is modelled as a `baseColumn`. -/
structure Table where
  getColumn : String → Except String baseColumn

/-- Go struct `deferredLookupColumn`: table back-reference, looked-up name,
and the resolve-once cache (`none` = Unresolved). -/
structure deferredLookupColumn where
  table : Table
  colName : String
  cachedColumn : Option baseColumn

/-- Go `deferredLookupColumn.Name`. -/
def deferredLookupColumn.Name (c : deferredLookupColumn) : String :=
  c.colName

/-- Result of serializing a deferred lookup column: new column state (the
cache may have been populated), buffer, error, and how many times
`table.getColumn` was invoked during this call. -/
structure DeferredSerializeResult where
  state : deferredLookupColumn
  out : Buffer
  err : Option String
  lookups : Nat

/-- Go `deferredLookupColumn.SerializeSql`: if the cache is populated,
delegate to it (no lookup); otherwise look the column up, propagate a lookup
error without caching, or cache the result and delegate to it. -/
def deferredLookupColumn.SerializeSql (c : deferredLookupColumn) (d : Dialect)
    (out : Buffer) : DeferredSerializeResult :=
  match c.cachedColumn with
  | some col =>
    let r := col.SerializeSql d out
    ⟨c, r.1, r.2, 0⟩
  | none =>
    match c.table.getColumn c.colName with
    | Except.error err => ⟨c, out, some err, 1⟩
    | Except.ok col =>
      let r := col.SerializeSql d out
      ⟨{ c with cachedColumn := some col }, r.1, r.2, 1⟩

/-- Go `deferredLookupColumn.SerializeSqlForColumnList`: delegates to
`SerializeSql` (ignoring `includeTableName`). -/
def deferredLookupColumn.SerializeSqlForColumnList (c : deferredLookupColumn)
    (includeTableName : Bool) (d : Dialect) (out : Buffer) : DeferredSerializeResult :=
  c.SerializeSql d out

/-- Go `deferredLookupColumn.setTableName`: always returns an error and never
mutates the receiver. -/
def deferredLookupColumn.setTableName (c : deferredLookupColumn) (table : String) :
    deferredLookupColumn × Option String :=
  (c, some ("lookup column \x27" ++ c.colName ++
    "\x27 should never have setTableName called on it"))

/-- Statement-side helper: the escaped form `<esc>s<esc>` of an identifier. -/
def escaped (d : Dialect) (s : String) : Buffer :=
  d.EscapeCharacter :: (s.data ++ [d.EscapeCharacter])

/-- Helper: serializing a base column never produces an error. -/
theorem baseColumn_serialize_no_error (c : baseColumn) (d : Dialect) (out : Buffer) :
    (baseColumn.SerializeSql c d out).2 = none := by
  simp [baseColumn.SerializeSql, baseColumn.SerializeSqlForColumnList]

/-- C3: for every base (typed) column, `SerializeSqlForColumnList` appends
exactly `<esc>table<esc>.` followed by `<esc>name<esc>` when the table is
non-empty and `includeTableName` is true, and exactly `<esc>name<esc>`
otherwise, and always succeeds (nil error), emitting whatever name is
stored. -/
theorem C3_baseColumn_SerializeSqlForColumnList (c : baseColumn) (inc : Bool)
    (d : Dialect) (out : Buffer) :
    baseColumn.SerializeSqlForColumnList c inc d out =
      (out ++ (if c.table ≠ "" ∧ inc = true then escaped d c.table ++ ['.'] else []) ++
        escaped d c.name, none) := by
  by_cases h : c.table ≠ "" ∧ inc = true <;>
    simp [baseColumn.SerializeSqlForColumnList, Buffer.WriteRune, Buffer.WriteString,
      Buffer.WriteByte, escaped, h, List.append_assoc]

/-- C7: `setTableName` on an alias column or a deferred lookup column always
returns a non-nil error, for every argument, and returns the receiver with
every field unchanged. -/
theorem C7_setTableName_always_errors (a : aliasColumn) (dl : deferredLookupColumn)
    (t : String) :
    (aliasColumn.setTableName a t).1 = a ∧
    ((aliasColumn.setTableName a t).2).isSome = true ∧
    (deferredLookupColumn.setTableName dl t).1 = dl ∧
    ((deferredLookupColumn.setTableName dl t).2).isSome = true := by
  simp [aliasColumn.setTableName, deferredLookupColumn.setTableName]

/-- C8: for every alias column, regardless of the name's validity and of
whether the wrapped expression is nil, `SerializeSql` appends exactly
`<esc>name<esc>` and succeeds. -/
theorem C8_aliasColumn_SerializeSql (c : aliasColumn) (d : Dialect) (out : Buffer) :
    aliasColumn.SerializeSql c d out = (out ++ escaped d c.toBaseColumn.name, none) := by
  simp [aliasColumn.SerializeSql, Buffer.WriteRune, Buffer.WriteString, escaped,
    List.append_assoc]

/-- C1: once `cachedColumn` is populated, `SerializeSql` (and
`SerializeSqlForColumnList`, which delegates to it) serializes via the cached
column with zero table lookups and leaves the state unchanged; moreover,
starting from an unresolved column whose lookup succeeds, the first
serialization performs exactly one lookup and caches its result, and a second
serialization of the resulting instance performs zero lookups and serializes
via that same cached column. -/
theorem C1_deferred_cache_memoized (c : deferredLookupColumn) (d : Dialect)
    (out out2 : Buffer) (col : baseColumn) (hc : c.cachedColumn = some col) :
    (deferredLookupColumn.SerializeSql c d out =
      ⟨c, (baseColumn.SerializeSql col d out).1, (baseColumn.SerializeSql col d out).2, 0⟩) ∧
    (∀ inc, deferredLookupColumn.SerializeSqlForColumnList c inc d out =
      deferredLookupColumn.SerializeSql c d out) ∧
    (∀ c0 : deferredLookupColumn, c0.cachedColumn = none →
      ∀ col0, c0.table.getColumn c0.colName = Except.ok col0 →
        (deferredLookupColumn.SerializeSql c0 d out).lookups = 1 ∧
        (deferredLookupColumn.SerializeSql c0 d out).state.cachedColumn = some col0 ∧
        (deferredLookupColumn.SerializeSql
          (deferredLookupColumn.SerializeSql c0 d out).state d out2).lookups = 0 ∧
        (deferredLookupColumn.SerializeSql
          (deferredLookupColumn.SerializeSql c0 d out).state d out2).state =
          (deferredLookupColumn.SerializeSql c0 d out).state ∧
        (deferredLookupColumn.SerializeSql
          (deferredLookupColumn.SerializeSql c0 d out).state d out2).out =
          (baseColumn.SerializeSql col0 d out2).1) := by
  refine ⟨?_, ?_, ?_⟩
  · simp [deferredLookupColumn.SerializeSql, hc]
  · intro inc
    rfl
  · intro c0 h0 col0 hcol
    simp [deferredLookupColumn.SerializeSql, h0, hcol]

/-- Concrete table for witnesses: resolves only the column named id. -/
def wTable : Table :=
  ⟨fun n => if n = "id" then Except.ok { name := "id", nullable := false, table := "users" }
    else Except.error "no such column"⟩

/-- Concrete resolved column for witnesses. -/
def wCol : baseColumn :=
  { name := "id", nullable := false, table := "users" }

/-- Concrete dialect for witnesses. -/
def wD : Dialect :=
  ⟨'#'⟩

/-- Concrete resolved deferred lookup column for witnesses. -/
def wDefCached : deferredLookupColumn :=
  { table := wTable, colName := "id", cachedColumn := some wCol }

/-- Concrete unresolved deferred lookup column whose lookup fails. -/
def wDefBad : deferredLookupColumn :=
  { table := wTable, colName := "nope", cachedColumn := none }

/-- Witness for C1 at a concrete resolved column. -/
theorem C1_deferred_cache_memoized_witness :
    wDefCached.cachedColumn = some wCol ∧
    deferredLookupColumn.SerializeSql wDefCached wD [] =
      ⟨wDefCached, (baseColumn.SerializeSql wCol wD []).1,
        (baseColumn.SerializeSql wCol wD []).2, 0⟩ :=
  ⟨rfl, (C1_deferred_cache_memoized wDefCached wD [] [] wCol rfl).1⟩

/-- C2: for an unresolved deferred lookup column whose lookup fails,
`SerializeSql` returns exactly the lookup error, writes nothing, performs one
lookup, and leaves the state unchanged (the failure is not cached); and if a
later call finds the table resolving the same name (schema completed), that
call succeeds, caches the result, and serializes via it. -/
theorem C2_deferred_error_not_cached (c : deferredLookupColumn) (d : Dialect)
    (out : Buffer) (e : String) (hc : c.cachedColumn = none)
    (he : c.table.getColumn c.colName = Except.error e) :
    deferredLookupColumn.SerializeSql c d out = ⟨c, out, some e, 1⟩ ∧
    (∀ t2 : Table, ∀ col : baseColumn, ∀ out2 : Buffer,
      t2.getColumn c.colName = Except.ok col →
        deferredLookupColumn.SerializeSql { c with table := t2 } d out2 =
          ⟨{ c with table := t2, cachedColumn := some col },
            (baseColumn.SerializeSql col d out2).1, none, 1⟩) := by
  constructor
  · simp [deferredLookupColumn.SerializeSql, hc, he]
  · intro t2 col out2 hok
    have h2 : (baseColumn.SerializeSql col d out2).2 = none :=
      baseColumn_serialize_no_error col d out2
    simp [deferredLookupColumn.SerializeSql, hc, hok, h2]

/-- Witness for C2 at a concrete failing lookup. -/
theorem C2_deferred_error_not_cached_witness :
    wDefBad.cachedColumn = none ∧
    wDefBad.table.getColumn wDefBad.colName = Except.error "no such column" ∧
    deferredLookupColumn.SerializeSql wDefBad wD [] =
      ⟨wDefBad, [], some "no such column", 1⟩ :=
  ⟨rfl, by simp [wDefBad, wTable],
    (C2_deferred_error_not_cached wDefBad wD [] "no such column" rfl
      (by simp [wDefBad, wTable])).1⟩

/-- C4: alias-column list serialization first fails (with the buffer's SQL in
the message) on an invalid alias name, then fails with a distinct error (also
with the buffer contents) on a nil expression, otherwise emits `(`, delegates
to the expression propagating its error unchanged, and on success emits
`) AS <esc>name<esc>`. -/
theorem C4_aliasColumn_SerializeSqlForColumnList (c : aliasColumn) (inc : Bool)
    (d : Dialect) (out : Buffer) :
    (validIdentifierName c.toBaseColumn.name = false →
      aliasColumn.SerializeSqlForColumnList c inc d out =
        (out, some ("invalid alias name `" ++ c.toBaseColumn.name ++ "`. Generated sql: " ++
          Buffer.toStr out))) ∧
    (validIdentifierName c.toBaseColumn.name = true → c.expression = none →
      aliasColumn.SerializeSqlForColumnList c inc d out =
        (out, some ("cannot alias a nil expression. Generated sql: " ++ Buffer.toStr out))) ∧
    (∀ ex : Expression, validIdentifierName c.toBaseColumn.name = true →
      c.expression = some ex →
      (∀ out2 err, ex d (Buffer.WriteByte out '(') = (out2, some err) →
        aliasColumn.SerializeSqlForColumnList c inc d out = (out2, some err)) ∧
      (∀ out2, ex d (Buffer.WriteByte out '(') = (out2, none) →
        aliasColumn.SerializeSqlForColumnList c inc d out =
          (out2 ++ (") AS ").data ++ escaped d c.toBaseColumn.name, none))) := by
  refine ⟨?_, ?_, ?_⟩
  · intro hv
    simp [aliasColumn.SerializeSqlForColumnList, hv]
  · intro hv he
    simp [aliasColumn.SerializeSqlForColumnList, hv, he]
  · intro ex hv he
    constructor
    · intro out2 err hx
      simp [aliasColumn.SerializeSqlForColumnList, hv, he, hx]
    · intro out2 hx
      simp [aliasColumn.SerializeSqlForColumnList, hv, he, hx, Buffer.WriteRune,
        Buffer.WriteString, escaped, List.append_assoc]

/-- Concrete well-behaved expression for witnesses. -/
def wExprOk : Expression :=
  fun _ out => (Buffer.WriteString out "1+2", none)

/-- Concrete failing expression for witnesses. -/
def wExprErr : Expression :=
  fun _ out => (Buffer.WriteString out "XY", some "boom")

/-- Witness for C4: the success path at a concrete alias. -/
theorem C4_aliasColumn_SerializeSqlForColumnList_witness :
    aliasColumn.SerializeSqlForColumnList (Alias "total" (some wExprOk)) true wD [] =
      (Buffer.WriteString (Buffer.WriteByte [] '(') "1+2" ++ (") AS ").data ++
        escaped wD "total", none) :=
  ((C4_aliasColumn_SerializeSqlForColumnList (Alias "total" (some wExprOk)) true wD
    []).2.2 wExprOk rfl rfl).2 (Buffer.WriteString (Buffer.WriteByte [] '(') "1+2") rfl

/-- C10: when an alias column with a valid name and non-nil expression has its
expression fail, the list serialization returns that error and the buffer is
exactly what the expression left behind (the opening parenthesis and any
partial expression output are retained, not rolled back). -/
theorem C10_alias_error_keeps_partial_output (c : aliasColumn) (inc : Bool)
    (d : Dialect) (out : Buffer) (ex : Expression) (out2 : Buffer) (err : String)
    (hv : validIdentifierName c.toBaseColumn.name = true)
    (he : c.expression = some ex)
    (hx : ex d (Buffer.WriteByte out '(') = (out2, some err)) :
    aliasColumn.SerializeSqlForColumnList c inc d out = (out2, some err) ∧
    (∀ extra : List Char, out2 = Buffer.WriteByte out '(' ++ extra →
      (aliasColumn.SerializeSqlForColumnList c inc d out).1 = out ++ '(' :: extra) := by
  have h1 : aliasColumn.SerializeSqlForColumnList c inc d out = (out2, some err) := by
    simp [aliasColumn.SerializeSqlForColumnList, hv, he, hx]
  refine ⟨h1, ?_⟩
  intro extra hext
  rw [h1]
  simp [hext, Buffer.WriteByte, List.append_assoc]

/-- Witness for C10 at a concrete failing expression. -/
theorem C10_alias_error_keeps_partial_output_witness :
    aliasColumn.SerializeSqlForColumnList (Alias "total" (some wExprErr)) true wD [] =
      (Buffer.WriteString (Buffer.WriteByte [] '(') "XY", some "boom") :=
  (C10_alias_error_keeps_partial_output (Alias "total" (some wExprErr)) true wD []
    wExprErr (Buffer.WriteString (Buffer.WriteByte [] '(') "XY") "boom" rfl rfl rfl).1

/-- C5: each typed-column factory panics (returns `none`) exactly when the
name fails identifier validation, and otherwise returns a column whose name is
the given name, whose nullable flag is the given one, and whose table
qualifier is unset. -/
theorem C5_typed_factories (name : String) (nullable : NullableColumn)
    (cs : Charset) (co : Collation) :
    (BytesColumn name nullable = none ↔ validIdentifierName name = false) ∧
    (∀ c, BytesColumn name nullable = some c →
      bytesColumn.Name c = name ∧ c.toBaseColumn.nullable = nullable ∧
        c.toBaseColumn.table = "") ∧
    (StrColumn name cs co nullable = none ↔ validIdentifierName name = false) ∧
    (∀ c, StrColumn name cs co nullable = some c →
      stringColumn.Name c = name ∧ c.toBaseColumn.nullable = nullable ∧
        c.toBaseColumn.table = "") ∧
    (DateTimeColumn name nullable = none ↔ validIdentifierName name = false) ∧
    (∀ c, DateTimeColumn name nullable = some c →
      dateTimeColumn.Name c = name ∧ c.toBaseColumn.nullable = nullable ∧
        c.toBaseColumn.table = "") ∧
    (IntColumn name nullable = none ↔ validIdentifierName name = false) ∧
    (∀ c, IntColumn name nullable = some c →
      integerColumn.Name c = name ∧ c.toBaseColumn.nullable = nullable ∧
        c.toBaseColumn.table = "") ∧
    (DoubleColumn name nullable = none ↔ validIdentifierName name = false) ∧
    (∀ c, DoubleColumn name nullable = some c →
      doubleColumn.Name c = name ∧ c.toBaseColumn.nullable = nullable ∧
        c.toBaseColumn.table = "") ∧
    (BoolColumn name nullable = none ↔ validIdentifierName name = false) ∧
    (∀ c, BoolColumn name nullable = some c →
      booleanColumn.Name c = name ∧ c.toBaseColumn.nullable = nullable ∧
        c.toBaseColumn.table = "") := by
  by_cases h : validIdentifierName name = true <;>
    simp [BytesColumn, StrColumn, DateTimeColumn, IntColumn, DoubleColumn, BoolColumn, h,
      bytesColumn.Name, stringColumn.Name, dateTimeColumn.Name, integerColumn.Name,
      doubleColumn.Name, booleanColumn.Name, baseColumn.Name, Bool.not_eq_true]

/-- Concrete bytes column for the C5 witness. -/
def wBytes : bytesColumn :=
  { toBaseColumn := { name := "id", nullable := Nullable, table := "" } }

/-- Witness for C5: a valid construction and an invalid one. -/
theorem C5_typed_factories_witness :
    BytesColumn "id" Nullable = some wBytes ∧
    (bytesColumn.Name wBytes = "id" ∧ wBytes.toBaseColumn.nullable = Nullable ∧
      wBytes.toBaseColumn.table = "") ∧
    IntColumn "2bad" Nullable = none :=
  ⟨rfl, (C5_typed_factories "id" Nullable UTF8 UTF8Binary).2.1 wBytes rfl,
    ((C5_typed_factories "2bad" Nullable UTF8 UTF8Binary).2.2.2.2.2.2.1).mpr (by decide)⟩

/-- Membership in the regular language `^[A-Za-z_][A-Za-z0-9_]*$`, written
from the spec's words independently of the source-derived validator, for
comparison with it. -/
def matchesIdentRegexpSpec (s : String) : Prop :=
  match s.data with
  | [] => False
  | c :: cs =>
    (('A' ≤ c ∧ c ≤ 'Z') ∨ ('a' ≤ c ∧ c ≤ 'z') ∨ c = '_') ∧
    ∀ x ∈ cs, ('A' ≤ x ∧ x ≤ 'Z') ∨ ('a' ≤ x ∧ x ≤ 'z') ∨ ('0' ≤ x ∧ x ≤ '9') ∨ x = '_'

/-- C6: `validIdentifierName` returns true exactly on the strings matching
`^[A-Za-z_][A-Za-z0-9_]*$`; in particular it rejects the empty string, any
string starting with a digit, and any string containing a character outside
`[A-Za-z0-9_]`. -/
theorem C6_validIdentifierName_regex (s : String) :
    (validIdentifierName s = true ↔ matchesIdentRegexpSpec s) ∧
    validIdentifierName "" = false ∧
    (∀ c cs, s.data = c :: cs → '0' ≤ c → c ≤ '9' → validIdentifierName s = false) ∧
    (∀ c, c ∈ s.data →
      ¬ (('A' ≤ c ∧ c ≤ 'Z') ∨ ('a' ≤ c ∧ c ≤ 'z') ∨ ('0' ≤ c ∧ c ≤ '9') ∨ c = '_') →
      validIdentifierName s = false) := by
  refine ⟨?_, by decide, ?_, ?_⟩
  · cases hd : s.data with
    | nil => simp [validIdentifierName, matchesIdentRegexpSpec, hd]
    | cons c cs =>
      simp only [validIdentifierName, matchesIdentRegexpSpec, hd, Bool.and_eq_true,
        List.all_eq_true, isIdentStartChar, isWordChar, decide_eq_true_iff]
      constructor
      · rintro ⟨h1, h2⟩
        exact ⟨by tauto, fun x hx => by have := h2 x hx; tauto⟩
      · rintro ⟨h1, h2⟩
        exact ⟨by tauto, fun x hx => by have := h2 x hx; tauto⟩
  · intro c cs hd h0 h9
    have hstart : isIdentStartChar c = false := by
      simp only [isIdentStartChar, decide_eq_false_iff_not]
      rintro (⟨ha, _⟩ | ⟨hA, _⟩ | hu)
      · exact absurd (le_trans ha h9) (by decide)
      · exact absurd (le_trans hA h9) (by decide)
      · subst hu
        exact absurd h9 (by decide)
    simp [validIdentifierName, hd, hstart]
  · intro c hc hn
    cases hd : s.data with
    | nil =>
      rw [hd] at hc
      exact absurd hc (List.not_mem_nil c)
    | cons c0 cs =>
      rw [hd] at hc
      rcases List.mem_cons.mp hc with heq | hmem
      · subst heq
        have hstart : isIdentStartChar c = false := by
          simp only [isIdentStartChar, decide_eq_false_iff_not]
          intro h
          exact hn (by tauto)
        simp [validIdentifierName, hd, hstart]
      · have hw : isWordChar c = false := by
          simp only [isWordChar, decide_eq_false_iff_not]
          intro h
          exact hn (by tauto)
        have hall : cs.all isWordChar = false := by
          cases hA : cs.all isWordChar
          · rfl
          · exact absurd (List.all_eq_true.mp hA c hmem) (by simp [hw])
        simp [validIdentifierName, hd, hall]

/-- Witness for C6 at concrete strings: a valid identifier, a digit-led
string, a string with a character outside the class, and the empty string. -/
theorem C6_validIdentifierName_regex_witness :
    (validIdentifierName "user_1" = true ↔ matchesIdentRegexpSpec "user_1") ∧
    validIdentifierName "" = false ∧
    validIdentifierName "1user" = false ∧
    validIdentifierName "a-b" = false :=
  ⟨(C6_validIdentifierName_regex "user_1").1,
    (C6_validIdentifierName_regex "user_1").2.1,
    (C6_validIdentifierName_regex "1user").2.2.1 '1' "user".data rfl (by decide) (by decide),
    (C6_validIdentifierName_regex "a-b").2.2.2 '-' (by decide) (by decide)⟩

/-- C9: two string columns built by `StrColumn` with the same name and
nullability (and the same later-set table qualifier) but different charset
and/or collation serialize identically through both entry points, with and
without the table qualifier set, always with a nil error: charset and
collation have no influence on serialization. -/
theorem C9_charset_collation_no_influence (name : String) (nb : NullableColumn)
    (cs1 cs2 : Charset) (co1 co2 : Collation) (tbl : String) (inc : Bool)
    (d : Dialect) (out : Buffer) (c1 c2 : stringColumn)
    (h1 : StrColumn name cs1 co1 nb = some c1)
    (h2 : StrColumn name cs2 co2 nb = some c2) :
    (stringColumn.SerializeSqlForColumnList c1 inc d out =
      stringColumn.SerializeSqlForColumnList c2 inc d out) ∧
    (stringColumn.SerializeSql c1 d out = stringColumn.SerializeSql c2 d out) ∧
    ((stringColumn.SerializeSql c1 d out).2 = none) ∧
    ((stringColumn.SerializeSqlForColumnList c1 inc d out).2 = none) ∧
    (stringColumn.SerializeSqlForColumnList (stringColumn.setTableName c1 tbl).1 inc d out =
      stringColumn.SerializeSqlForColumnList (stringColumn.setTableName c2 tbl).1 inc d out) ∧
    (stringColumn.SerializeSql (stringColumn.setTableName c1 tbl).1 d out =
      stringColumn.SerializeSql (stringColumn.setTableName c2 tbl).1 d out) := by
  by_cases hv : validIdentifierName name = true
  · simp only [StrColumn, hv, Bool.not_true, Bool.false_eq_true, if_false,
      Option.some.injEq] at h1 h2
    subst h1
    subst h2
    simp [stringColumn.SerializeSqlForColumnList, stringColumn.SerializeSql,
      stringColumn.setTableName, baseColumn.setTableName, baseColumn.SerializeSql,
      baseColumn.SerializeSqlForColumnList]
  · rw [Bool.not_eq_true] at hv
    rw [StrColumn, hv] at h1
    simp at h1

/-- Concrete string column (charset utf8) for the C9 witness. -/
def wStr1 : stringColumn :=
  { toBaseColumn := { name := "title", nullable := true, table := "" },
    charset := "utf8", collation := "utf8_bin" }

/-- Concrete string column (charset latin1) for the C9 witness. -/
def wStr2 : stringColumn :=
  { toBaseColumn := { name := "title", nullable := true, table := "" },
    charset := "latin1", collation := "latin1_swedish_ci" }

/-- Witness for C9 at two concrete string columns differing only in charset
and collation. -/
theorem C9_charset_collation_no_influence_witness :
    stringColumn.SerializeSqlForColumnList wStr1 true wD [] =
      stringColumn.SerializeSqlForColumnList wStr2 true wD [] ∧
    stringColumn.SerializeSql (stringColumn.setTableName wStr1 "books").1 wD [] =
      stringColumn.SerializeSql (stringColumn.setTableName wStr2 "books").1 wD [] := by
  have h := C9_charset_collation_no_influence "title" true "utf8" "latin1" "utf8_bin"
    "latin1_swedish_ci" "books" true wD [] wStr1 wStr2 rfl rfl
  exact ⟨h.1, h.2.2.2.2.2⟩

end Sqlbuilder
